import Mathlib

/-!
# Verification of `freezer_monitor.py` (sdelaughter/Freezer-Monitor)

A shallow embedding of the monitoring script `src/freezer_monitor.py`
(version 0.3.2) in Lean 4, together with theorems settling the claims of
its specification.

Modelling conventions:
* Python dictionaries built by `parse_info` are association lists
  `List (String × String)` with insert-overwrites semantics.
* Python exceptions are the `PyError` type; fallible code returns
  `Except PyError α`.
* Side effects (log records, attempted SMTP `sendmail` calls, `sleep`
  calls) are collected in an explicit `Run` trace.
* Whether an attempted transport delivery succeeds is decided by an
  environment `env : SendAttempt → Bool` standing for the SMTP server.
* The Python split `s.split(", ")` is modelled by `pySplit`, a direct
  left-to-right scan over the character list.
-/

set_option autoImplicit false
set_option linter.unusedVariables false
set_option maxRecDepth 100000

namespace FreezerMonitor

/-- Python exceptions that the embedded code can raise.
`nameError n` models evaluating an undefined name `n`;
`keyError k` models a dictionary lookup `d[k]` with `k` absent;
`indexError` models an out-of-range list index. -/
inductive PyError where
  | nameError (n : String)
  | keyError (k : String)
  | indexError
  deriving DecidableEq, Repr

/-- Association-list model of the Python dict built row by row in
`parse_info` (`entry[header[i]] = row[i]`): an existing key is
overwritten in place, a new key is appended. -/
abbrev Dict := List (String × String)

/-- `entry[k] = v` on a Python dict: overwrite the binding of `k` when
present, append it otherwise. -/
def dictInsert (d : Dict) (k v : String) : Dict :=
  if d.any (fun p => p.1 = k) then
    d.map (fun p => if p.1 = k then (k, v) else p)
  else
    d ++ [(k, v)]

/-- `d[k]` as a partial lookup: the value bound to `k`, if any. -/
def dictGet? (d : Dict) (k : String) : Option String :=
  (d.find? (fun p => p.1 = k)).map Prod.snd

/-- `d[k]` as the Python expression: a missing key raises `KeyError`. -/
def pyGet (d : Dict) (k : String) : Except PyError String :=
  match dictGet? d k with
  | some v => .ok v
  | none => .error (.keyError k)

/-! ## `parse_info` (lines 67–95)

The CSV reader is modelled as already having produced the list of rows
(each a list of string fields); `parse_info` pops the header row and
builds one dict per remaining row with
`for i in range(len(row)): entry[header[i]] = row[i]`.
A row longer than the header makes `header[i]` raise `IndexError`,
which aborts the whole load; a row shorter than the header raises
nothing and simply leaves the missing columns unbound. -/

/-- The loop `for i in range(len(row)): entry[header[i]] = row[i]`,
walking the remaining fields of the row with `i` the index of the next
field and `entry` the dict accumulated so far. -/
def buildEntryGo (header : List String) (entry : Dict) (i : Nat) :
    List String → Except PyError Dict
  | [] => .ok entry
  | v :: rest =>
    match header[i]? with
    | some k => buildEntryGo header (dictInsert entry k v) (i + 1) rest
    | none => .error .indexError

/-- Build the dict for one data row of the CSV file. -/
def buildEntry (header row : List String) : Except PyError Dict :=
  buildEntryGo header [] 0 row

deriving instance DecidableEq for Except

/-- The loop `for row in rows: ... entries.append(entry)`: build the
entries in order; a raised exception aborts the whole loop (the partial
`entries` list is discarded, as the whole call raises). -/
def buildEntries (header : List String) : List (List String) → Except PyError (List Dict)
  | [] => .ok []
  | row :: rest =>
    match buildEntry header row with
    | .error e => .error e
    | .ok entry =>
      match buildEntries header rest with
      | .error e => .error e
      | .ok es => .ok (entry :: es)

/-- `parse_info`: pop the header (an empty file raises `IndexError` at
`rows.pop(0)`), then build one entry per remaining row.  Any raised
exception aborts the whole load. -/
def parse_info (rows : List (List String)) : Except PyError (List Dict) :=
  match rows with
  | [] => .error .indexError
  | header :: rest => buildEntries header rest

/-- Whether an `Except` computation completed without raising. -/
def exceptOk {α : Type} (e : Except PyError α) : Bool :=
  match e with
  | .ok _ => true
  | .error _ => false

/-! ## Effect traces -/

/-- Severity levels of `my_logger` calls. -/
inductive LogLevel where
  | debug
  | info
  | warning
  | critical
  deriving DecidableEq, Repr

/-- One emitted log record. -/
structure LogEntry where
  level : LogLevel
  text : String
  deriving DecidableEq, Repr

/-- An email message as assembled by the script: `MIMEText` body plus the
`Subject` and `reply-to` headers set on it. -/
structure Message where
  body : String
  subject : String
  replyTo : String
  deriving DecidableEq, Repr

/-- One attempted `s.sendmail(sender, recipients, msg.as_string())` call. -/
structure SendAttempt where
  sender : String
  recipients : List String
  message : Message
  deriving DecidableEq, Repr

/-- Rendering of the Python `str(xs)` for a list of strings; the quote
marks of the Python repr are omitted (no claim depends on them). -/
def pyStrList (xs : List String) : String :=
  "[" ++ String.intercalate ", " xs ++ "]"

/-- The observable trace of running a piece of the script: log records,
attempted SMTP deliveries and `sleep` calls in order, and the outcome
(`.error e` when a Python exception escapes). -/
structure Run (α : Type) where
  logs : List LogEntry
  sends : List SendAttempt
  sleeps : List Nat
  result : Except PyError α
  deriving DecidableEq, Repr

/-- Sequencing of two statements: when the first raises, the second
never runs and its trace is discarded. -/
def Run.andThen (a b : Run Unit) : Run Unit :=
  match a.result with
  | .error _ => a
  | .ok _ => ⟨a.logs ++ b.logs, a.sends ++ b.sends, a.sleeps ++ b.sleeps, b.result⟩

/-- Prefix a trace with log records emitted before it. -/
def Run.withLogs {α : Type} (ls : List LogEntry) (a : Run α) : Run α :=
  { a with logs := ls ++ a.logs }

/-! ## `send_mail` (lines 98–174)

The SMTP server is an environment `env : SendAttempt → Bool` deciding
whether a given `sendmail` call is delivered (`true`) or raises
(`false`). -/

/-- Lines 135–145: compose the alert (`status == 1`) or all-clear
(`status == 0`) message.  For any other status neither branch runs and
the local variable `msg` is never assigned, modelled as `none`.
The `reply-to` header is set afterwards (line 147). -/
def composeMessage (status : Int) (location event_time : String) : Option Message :=
  if status = 1 then
    some
      { body := "A potential problem has been detected with the freezer located in: "
          ++ location ++ "\nThis event was detected at: " ++ event_time
        subject := "ALERT: Problem with freezer in " ++ location
        replyTo := "" }
  else if status = 0 then
    some
      { body := "The problem detected with the freezer located in: " ++ location
          ++ " appears to have been resolved."
          ++ "\nThis resolution was detected at: " ++ event_time
          ++ "\nPlease check this freezer to confirm that it is now working properly."
        subject := "Re: ALERT: Problem with freezer in " ++ location
        replyTo := "" }
  else
    none

/-- `send_mail`.  Control flow of the source:
* line 147 `msg[...] = reply_to` raises `NameError` on the unassigned
  name `msg` when the status is neither 0 nor 1;
* on delivery of the primary message, log and return (lines 151–152);
* on primary failure the handler first evaluates
  `str(msg_type)` (line 154) — `msg_type` is not defined anywhere in the
  module, so a `NameError` is raised inside the handler and propagates.
  The backup-tier attempt and the 5-minute retry (lines 155–174) are
  therefore unreachable code. -/
def send_mail (env : SendAttempt → Bool) (status : Int) (recipients : List String)
    (sender reply_to : String) (backup : List String) (location event_time : String) :
    Run Unit :=
  let dbg : LogEntry := ⟨.debug, "Attempting to send mail to " ++ pyStrList recipients⟩
  match composeMessage status location event_time with
  | none => ⟨[dbg], [], [], .error (.nameError "msg")⟩
  | some m =>
    let att : SendAttempt := ⟨sender, recipients, { m with replyTo := reply_to }⟩
    if env att then
      ⟨[dbg, ⟨.info, "Sent mail to: " ++ pyStrList recipients
          ++ "\t\t For freezer in: " ++ location⟩],
        [att], [], .ok ()⟩
    else
      ⟨[dbg], [att], [], .error (.nameError "msg_type")⟩

/-! ## `handle_csv_error` (lines 177–226) -/

/-- `CSV_ERROR_ADDRESSES` (line 55). -/
def CSV_ERROR_ADDRESSES_from : String := "freezer_monitor@example.edu"

/-- `CSV_ERROR_ADDRESSES` (line 55). -/
def CSV_ERROR_ADDRESSES_to : List String := ["it-admins@example.edu"]

/-- `CSV_ERROR_ADDRESSES` (line 55). -/
def CSV_ERROR_ADDRESSES_reply_to : String := "it-admins@example.edu"

/-- The message composed on lines 203–213. -/
def csvErrorMessage (status : Int) (ip event_time : String) : Message :=
  let base := "Failure to read CSV file on RaspberryPi at IP: " ++ ip
    ++ "\nEvent Time: " ++ event_time
    ++ "\n\nPlease verify the contents and structure of the CSV file ASAP.\tAlert messages for freezer events cannot be sent until this error is resolved."
  let body :=
    if status = 1 then
      base ++ "\n\nAlso note that this message indicates a potential problem with the freezer connected to this RaspberryPi. Please check the freezer or notify the appropriate lab members immediately."
    else if status = 0 then
      base ++ "\n\nNote that this message indicates the resolution of a potential problem with the freezer connected to this RaspberryPi. Please notify the appropriate lab members to confirm that the freezer is now working properly."
    else
      base
  { body := body
    subject := "Error reading CSV file on Freezer RPi at IP" ++ ip
    replyTo := CSV_ERROR_ADDRESSES_reply_to }

/-- The try-block of `handle_csv_error` (lines 202–222), as far as it
gets.  After composing the message and reading the sender and recipient
lists from `CSV_ERROR_ADDRESSES`, line 216 evaluates
`type(recipients) == string`; the name `string` is not defined in the
module (the `string` module is never imported), so a `NameError` is
raised there — before `smtplib.SMTP` is ever reached.  The result type
`Empty` records that the block can never complete normally; its
remaining lines (the `sendmail` call, the success log — itself
referencing another undefined name, `recipeints` — the 900-second sleep
and the `handle_event` retry) are unreachable. -/
def csvErrorTryBody (status : Int) (ip event_time : String) : Except PyError Empty :=
  let _msg := csvErrorMessage status ip event_time
  let _sender := CSV_ERROR_ADDRESSES_from
  let _recipients := CSV_ERROR_ADDRESSES_to
  .error (.nameError "string")

/-- The observable behaviour of one `handle_csv_error` call: its trace,
plus the status passed to the `handle_event(status)` tail call that ends
it. -/
structure CsvErrorRun where
  logs : List LogEntry
  sends : List SendAttempt
  sleeps : List Nat
  retryStatus : Int
  deriving DecidableEq, Repr

/-- `handle_csv_error`.  The critical record on line 201 is logged
first; the try-block then raises (see `csvErrorTryBody`), and the
handler (lines 223–226) logs a second critical record (`recipients` was
assigned on line 215, before the line-216 `NameError`, so `str(recipients)`
succeeds), sleeps 900 seconds and tail-calls `handle_event(status)`. -/
def handle_csv_error (status : Int) (ip event_time : String) : CsvErrorRun :=
  let crit1 : LogEntry := ⟨.critical, "!!! Failed to read CSV File !!!"⟩
  match csvErrorTryBody status ip event_time with
  | .ok e => e.elim
  | .error _ =>
    { logs := [crit1,
        ⟨.critical, "!!! Failed to read CSV File and failed to alert "
          ++ pyStrList CSV_ERROR_ADDRESSES_to ++ " !!!"⟩]
      sends := []
      sleeps := [900]
      retryStatus := status }

/-! ## `handle_event` (lines 230–279) -/

/-- The scan of the Python split `s.split(sep)` for a non-empty `sep`,
over character lists: walk left to right, and at each non-overlapping
occurrence of `sep` end the current chunk (accumulated reversed in
`acc`) and continue after the separator.  `fuel` bounds the number of
steps; it is set to the length of the input, which suffices since every
step consumes at least one character. -/
def pySplitAux (sep : List Char) : Nat → List Char → List Char → List (List Char)
  | _, acc, [] => [acc.reverse]
  | 0, acc, l => [acc.reverse ++ l]
  | fuel + 1, acc, c :: rest =>
    if sep.isPrefixOf (c :: rest) then
      acc.reverse :: pySplitAux sep fuel [] ((c :: rest).drop sep.length)
    else
      pySplitAux sep fuel (c :: acc) rest

/-- The Python split `s.split(sep)` for a non-empty separator. -/
def pySplit (s sep : String) : List String :=
  (pySplitAux sep.data (s.data.length + 1) [] s.data).map String.mk

/-- The field reads of the loop body (lines 273–278), in source order:
`Email` (split with `pySplit` on `", "`), `Location`, `Department`,
`From Email`, `Reply-To Email`, `Backup Email` (split on `", "`).  Each is a plain
`entry[key]` access, so a missing key raises `KeyError` at that point.
Note: line 277 of the source carries a stray extra opening parenthesis
(`reply_to = ((info[i][...])`); the embedding follows the evident intent
`reply_to = (info[i][...])`. -/
def entryFields (entry : Dict) :
    Except PyError (List String × String × String × String × List String) :=
  match pyGet entry "Email" with
  | .error e => .error e
  | .ok email =>
  match pyGet entry "Location" with
  | .error e => .error e
  | .ok location =>
  match pyGet entry "Department" with
  | .error e => .error e
  | .ok _department =>
  match pyGet entry "From Email" with
  | .error e => .error e
  | .ok sender =>
  match pyGet entry "Reply-To Email" with
  | .error e => .error e
  | .ok reply_to =>
  match pyGet entry "Backup Email" with
  | .error e => .error e
  | .ok backup =>
    .ok (pySplit email ", ", location, sender, reply_to, pySplit backup ", ")

/-- One iteration of the loop `for i in range(len(info))` (lines
271–279): compare `info[i]["IP"]` with the local address; on a match
read the fields and call `send_mail`, otherwise do nothing.  A raised
exception (missing key, or the `send_mail` failure cascade) propagates
and kills the handler thread. -/
def processEntry (env : SendAttempt → Bool) (status : Int) (ip event_time : String)
    (entry : Dict) : Run Unit :=
  match pyGet entry "IP" with
  | .error e => ⟨[], [], [], .error e⟩
  | .ok v =>
    if v = ip then
      match entryFields entry with
      | .error e => ⟨[], [], [], .error e⟩
      | .ok (recipients, location, sender, reply_to, backup) =>
        send_mail env status recipients sender reply_to backup location event_time
    else
      ⟨[], [], [], .ok ()⟩

/-- The whole matching loop over the parsed directory, in order; an
exception raised at any entry aborts the remaining iterations. -/
def processEntries (env : SendAttempt → Bool) (status : Int) (ip event_time : String) :
    List Dict → Run Unit
  | [] => ⟨[], [], [], .ok ()⟩
  | e :: rest =>
    (processEntry env status ip event_time e).andThen
      (processEntries env status ip event_time rest)

/-- The two log records emitted at the top of `handle_event`
(lines 254 and 261). -/
def eventLogs (ip event_time : String) : List LogEntry :=
  [⟨.info, "Freezer event detected at " ++ event_time⟩,
   ⟨.debug, "Detected local IP address of " ++ ip⟩]

/-- `handle_event` over CSV content `csvRows`, local address `ip` and
detection time `event_time`.  When `parse_info` succeeds, the
`while not parsed_csv` loop runs exactly once and the function proceeds
to the matching loop (result `some run`).  When `parse_info` raises, the
loop instead enters `handle_csv_error` — which never returns normally
(it ends in a `handle_event(status)` tail call, see `handle_csv_error`)
— modelled as `none`. -/
def handle_event (env : SendAttempt → Bool) (csvRows : List (List String))
    (status : Int) (ip event_time : String) : Option (Run Unit) :=
  match parse_info csvRows with
  | .ok info =>
    some (Run.withLogs (eventLogs ip event_time ++ [⟨.debug, "Finished parsing CSV file"⟩])
      (processEntries env status ip event_time info))
  | .error _ => none

/-! ## `monitor` (lines 311–340) -/

/-- The `while True` loop (lines 332–340) over a finite prefix of GPIO
readings: each iteration reads `b`, launches a `handle_event(b)` thread
iff `a != b`, then sets `a = b`.  Per sample, the entry is `some b` when
a handler is dispatched with status `b` and `none` otherwise. -/
def loopSteps (a : Nat) : List Nat → List (Option Nat)
  | [] => []
  | b :: rest => (if a = b then none else some b) :: loopSteps b rest

/-- The level a sample is compared against: the initial reading for the
first loop iteration, the previous sample afterwards. -/
def prevLevel (a : Nat) (samples : List Nat) (i : Nat) : Nat :=
  if i = 0 then a else samples.getD (i - 1) 0

/-- `monitor`: the statuses passed to dispatched `handle_event` threads,
in order.  Lines 326–331 dispatch one startup handler with status 1 when
the initial reading `a = GPIO.input(PIN)` is 1; then the loop runs. -/
def monitorDispatches (initial : Nat) (samples : List Nat) : List Nat :=
  (if initial = 1 then [1] else []) ++ (loopSteps initial samples).filterMap id

/-- The loop guard `info[i]["IP"] == ip` as a Boolean predicate on an
entry (false also covers a missing `IP` key, though the code raises
there instead of comparing). -/
def matchesHost (ip : String) (e : Dict) : Bool :=
  dictGet? e "IP" == some ip

/-- A directory entry binds every column the loop body reads: `IP`
(line 272) plus the six fields of lines 273–278 (`Department` among
them, although the file format does not require it). -/
def requiredFieldsPresent (e : Dict) : Bool :=
  (dictGet? e "IP").isSome && (dictGet? e "Email").isSome &&
  (dictGet? e "Location").isSome && (dictGet? e "Department").isSome &&
  (dictGet? e "From Email").isSome && (dictGet? e "Reply-To Email").isSome &&
  (dictGet? e "Backup Email").isSome

/-! ## Helper lemmas -/

theorem send_mail_delivered_eq (env : SendAttempt → Bool) (status : Int)
    (recipients : List String) (sender reply_to : String) (backup : List String)
    (location event_time : String) (m : Message)
    (hm : composeMessage status location event_time = some m)
    (henv : env ⟨sender, recipients, { m with replyTo := reply_to }⟩ = true) :
    send_mail env status recipients sender reply_to backup location event_time =
      ⟨[⟨.debug, "Attempting to send mail to " ++ pyStrList recipients⟩,
        ⟨.info, "Sent mail to: " ++ pyStrList recipients ++ "\t\t For freezer in: " ++ location⟩],
        [⟨sender, recipients, { m with replyTo := reply_to }⟩], [], .ok ()⟩ := by
  simp [send_mail, hm, henv]

theorem send_mail_primary_failed_eq (env : SendAttempt → Bool) (status : Int)
    (recipients : List String) (sender reply_to : String) (backup : List String)
    (location event_time : String) (m : Message)
    (hm : composeMessage status location event_time = some m)
    (henv : env ⟨sender, recipients, { m with replyTo := reply_to }⟩ = false) :
    send_mail env status recipients sender reply_to backup location event_time =
      ⟨[⟨.debug, "Attempting to send mail to " ++ pyStrList recipients⟩],
        [⟨sender, recipients, { m with replyTo := reply_to }⟩], [],
        .error (.nameError "msg_type")⟩ := by
  simp [send_mail, hm, henv]

theorem Run.andThen_ok (a b : Run Unit) (h : a.result = .ok ()) :
    a.andThen b = ⟨a.logs ++ b.logs, a.sends ++ b.sends, a.sleeps ++ b.sleeps, b.result⟩ := by
  unfold Run.andThen
  rw [h]

theorem processEntry_fields_eq (env : SendAttempt → Bool) (status : Int)
    (ip event_time : String) (e : Dict)
    (hf : requiredFieldsPresent e = true)
    (henv : ∀ a, env a = true)
    (hstatus : status = 0 ∨ status = 1) :
    (processEntry env status ip event_time e).result = .ok () ∧
    (processEntry env status ip event_time e).sends.map (fun a => a.recipients) =
      (if matchesHost ip e then [pySplit ((dictGet? e "Email").getD "") ", "] else []) := by
  simp only [requiredFieldsPresent, Bool.and_eq_true] at hf
  obtain ⟨⟨⟨⟨⟨⟨hip, hem⟩, hlo⟩, hde⟩, hfr⟩, hrt⟩, hbk⟩ := hf
  obtain ⟨vip, hvip⟩ := Option.isSome_iff_exists.mp hip
  obtain ⟨vem, hvem⟩ := Option.isSome_iff_exists.mp hem
  obtain ⟨vlo, hvlo⟩ := Option.isSome_iff_exists.mp hlo
  obtain ⟨vde, hvde⟩ := Option.isSome_iff_exists.mp hde
  obtain ⟨vfr, hvfr⟩ := Option.isSome_iff_exists.mp hfr
  obtain ⟨vrt, hvrt⟩ := Option.isSome_iff_exists.mp hrt
  obtain ⟨vbk, hvbk⟩ := Option.isSome_iff_exists.mp hbk
  have hget : pyGet e "IP" = .ok vip := by simp [pyGet, hvip]
  by_cases hmatch : vip = ip
  · subst hmatch
    have hmh : matchesHost vip e = true := by simp [matchesHost, hvip]
    have hef : entryFields e = .ok (pySplit vem ", ", vlo, vfr, vrt, pySplit vbk ", ") := by
      simp [entryFields, pyGet, hvem, hvlo, hvde, hvfr, hvrt, hvbk]
    have hcm : ∃ m, composeMessage status vlo event_time = some m := by
      rcases hstatus with h | h <;> subst h <;> exact ⟨_, rfl⟩
    obtain ⟨m, hm⟩ := hcm
    have hsm := send_mail_delivered_eq env status (pySplit vem ", ") vfr vrt
      (pySplit vbk ", ") vlo event_time m hm (henv _)
    have hpe : processEntry env status vip event_time e =
        send_mail env status (pySplit vem ", ") vfr vrt (pySplit vbk ", ") vlo event_time := by
      simp [processEntry, hget, hef]
    rw [hpe, hsm]
    refine ⟨rfl, ?_⟩
    simp [hmh, hvem]
  · have hmh : matchesHost ip e = false := by
      simp [matchesHost, hvip]
      exact hmatch
    have hpe : processEntry env status ip event_time e = ⟨[], [], [], .ok ()⟩ := by
      simp [processEntry, hget, hmatch]
    rw [hpe]
    exact ⟨rfl, by simp [hmh]⟩

theorem processEntries_all_matches (env : SendAttempt → Bool) (status : Int)
    (ip event_time : String) (info : List Dict)
    (hf : info.all requiredFieldsPresent = true)
    (henv : ∀ a, env a = true)
    (hstatus : status = 0 ∨ status = 1) :
    (processEntries env status ip event_time info).result = .ok () ∧
    (processEntries env status ip event_time info).sends.map (fun a => a.recipients) =
      (info.filter (matchesHost ip)).map
        (fun e => pySplit ((dictGet? e "Email").getD "") ", ") := by
  induction info with
  | nil => exact ⟨rfl, rfl⟩
  | cons e rest ih =>
    rw [List.all_cons, Bool.and_eq_true] at hf
    obtain ⟨hfe, hfr⟩ := hf
    have h1 := processEntry_fields_eq env status ip event_time e hfe henv hstatus
    have h2 := ih hfr
    have hseq : processEntries env status ip event_time (e :: rest) =
        (processEntry env status ip event_time e).andThen
          (processEntries env status ip event_time rest) := rfl
    rw [hseq, Run.andThen_ok _ _ h1.1]
    refine ⟨h2.1, ?_⟩
    simp only [List.map_append, h1.2, h2.2, List.filter_cons]
    by_cases hmh : matchesHost ip e
    · simp [hmh]
    · simp [hmh]

theorem exceptOk_buildEntryGo (header : List String) :
    ∀ (row : List String) (i : Nat) (entry : Dict),
      exceptOk (buildEntryGo header entry i row) = true ↔
        (row = [] ∨ i + row.length ≤ header.length) := by
  intro row
  induction row with
  | nil => intro i entry; simp [buildEntryGo, exceptOk]
  | cons v rest ih =>
    intro i entry
    simp only [List.length_cons]
    by_cases hlt : i < header.length
    · have hk : header[i]? = some (header.get ⟨i, hlt⟩) := List.getElem?_eq_getElem hlt
      rw [buildEntryGo]
      simp only [hk]
      rw [ih]
      constructor
      · rintro (hr | hle)
        · subst hr; right; simpa using hlt
        · right; omega
      · rintro (hc | hle)
        · exact absurd hc (by simp)
        · by_cases hr : rest = []
          · exact Or.inl hr
          · right; omega
    · have hk : header[i]? = none := by
        rw [List.getElem?_eq_none]
        omega
      rw [buildEntryGo]
      simp only [hk]
      constructor
      · intro hfalse; simp [exceptOk] at hfalse
      · rintro (hc | hle)
        · exact absurd hc (by simp)
        · omega

theorem exceptOk_buildEntry (header row : List String) :
    exceptOk (buildEntry header row) = true ↔ row.length ≤ header.length := by
  rw [buildEntry, exceptOk_buildEntryGo]
  constructor
  · rintro (hr | hle)
    · subst hr; simp
    · omega
  · intro hle
    right; omega

/-! ## The claims -/

/-- C1: the claim states that a PRIMARY send failure always triggers
exactly one BACKUP-tier attempt with a distinct failure-notice message
before any retry.  The code cannot: the except handler first evaluates
`str(msg_type)` (line 154), and `msg_type` is undefined, so a `NameError`
propagates out of `send_mail`.  This theorem evaluates the code at such
an invocation: the only attempted delivery is the primary one to
`recipients` — nothing is ever composed for or sent to `backup` — and the
call ends in the `msg_type` `NameError`. -/
theorem send_mail_primary_failure_skips_backup (env : SendAttempt → Bool)
    (status : Int) (recipients : List String) (sender reply_to : String)
    (backup : List String) (location event_time : String) (m : Message)
    (hm : composeMessage status location event_time = some m)
    (hfail : env ⟨sender, recipients, { m with replyTo := reply_to }⟩ = false) :
    (send_mail env status recipients sender reply_to backup location event_time).sends =
        [⟨sender, recipients, { m with replyTo := reply_to }⟩] ∧
    (send_mail env status recipients sender reply_to backup location event_time).result =
        .error (.nameError "msg_type") := by
  rw [send_mail_primary_failed_eq env status recipients sender reply_to backup
    location event_time m hm hfail]
  exact ⟨rfl, rfl⟩

/-- C1 witness: a concrete alert invocation whose primary delivery
fails. -/
theorem send_mail_primary_failure_skips_backup_witness :
    (send_mail (fun _ => false) 1 ["a@x.edu"] "f@x.edu" "r@x.edu" ["bk@x.edu"] "L" "t").sends =
        [⟨"f@x.edu", ["a@x.edu"],
          { body := "A potential problem has been detected with the freezer located in: L\nThis event was detected at: t"
            subject := "ALERT: Problem with freezer in L"
            replyTo := "r@x.edu" }⟩] ∧
    (send_mail (fun _ => false) 1 ["a@x.edu"] "f@x.edu" "r@x.edu" ["bk@x.edu"] "L" "t").result =
        .error (.nameError "msg_type") :=
  send_mail_primary_failure_skips_backup (fun _ => false) 1 ["a@x.edu"] "f@x.edu"
    "r@x.edu" ["bk@x.edu"] "L" "t"
    { body := "A potential problem has been detected with the freezer located in: L\nThis event was detected at: t"
      subject := "ALERT: Problem with freezer in L"
      replyTo := "" }
    (by decide) (by decide)

/-- C4: the claim states that when both the PRIMARY and BACKUP sends
fail, a critical double-failure is logged, 300 seconds elapse and the
original call is retried with identical arguments until success.  The
code never gets there: the `msg_type` `NameError` in the except handler
(line 154) propagates before the backup attempt, so no critical record
is logged, no sleep happens and `send_mail` is never re-invoked.  This
theorem evaluates the code on a failing primary delivery (which is in
particular the situation in which the backup would also have failed). -/
theorem send_mail_double_failure_no_retry (env : SendAttempt → Bool)
    (status : Int) (recipients : List String) (sender reply_to : String)
    (backup : List String) (location event_time : String) (m : Message)
    (hm : composeMessage status location event_time = some m)
    (hfail : env ⟨sender, recipients, { m with replyTo := reply_to }⟩ = false) :
    (send_mail env status recipients sender reply_to backup location event_time).sleeps = [] ∧
    (send_mail env status recipients sender reply_to backup location event_time).logs.all
        (fun e => e.level != .critical) = true ∧
    (send_mail env status recipients sender reply_to backup location event_time).result =
        .error (.nameError "msg_type") := by
  rw [send_mail_primary_failed_eq env status recipients sender reply_to backup
    location event_time m hm hfail]
  exact ⟨rfl, rfl, rfl⟩

/-- C4 witness: a concrete all-clear invocation whose delivery fails:
no sleep, no critical record, the `NameError` escapes. -/
theorem send_mail_double_failure_no_retry_witness :
    (send_mail (fun _ => false) 0 ["a@x.edu"] "f@x.edu" "r@x.edu" ["bk@x.edu"] "L" "t").sleeps = [] ∧
    (send_mail (fun _ => false) 0 ["a@x.edu"] "f@x.edu" "r@x.edu" ["bk@x.edu"] "L" "t").logs.all
        (fun e => e.level != .critical) = true ∧
    (send_mail (fun _ => false) 0 ["a@x.edu"] "f@x.edu" "r@x.edu" ["bk@x.edu"] "L" "t").result =
        .error (.nameError "msg_type") :=
  send_mail_double_failure_no_retry (fun _ => false) 0 ["a@x.edu"] "f@x.edu"
    "r@x.edu" ["bk@x.edu"] "L" "t"
    { body := "The problem detected with the freezer located in: L appears to have been resolved.\nThis resolution was detected at: t\nPlease check this freezer to confirm that it is now working properly."
      subject := "Re: ALERT: Problem with freezer in L"
      replyTo := "" }
    (by decide) (by decide)

/-- C2: the claim states that `handle_csv_error` sends the fallback
message to the fixed `CSV_ERROR_ADDRESSES` recipients and, whether that
send succeeds or fails, sleeps 900 seconds and re-invokes
`handle_event` with the original status.  The delay-and-retry half is
true, but the fallback message is never sent: line 216 evaluates
`type(recipients) == string` and the name `string` is undefined, so a
`NameError` is raised before `smtplib.SMTP` is reached, on every
invocation.  This theorem evaluates the code: no delivery is ever
attempted, yet the 900-second sleep and the `handle_event(status)`
retry with the original status always happen. -/
theorem handle_csv_error_never_sends_but_retries (status : Int) (ip event_time : String) :
    (handle_csv_error status ip event_time).sends = [] ∧
    (handle_csv_error status ip event_time).sleeps = [900] ∧
    (handle_csv_error status ip event_time).retryStatus = status := by
  exact ⟨rfl, rfl, rfl⟩

/-- C10: for a status other than 0 and 1 neither message branch runs,
so the local `msg` is never assigned; line 147 then raises `NameError`
on it, before the SMTP connection is opened.  No body or subject is
composed and no delivery to `recipients` is ever attempted. -/
theorem send_mail_bad_status_never_sends (env : SendAttempt → Bool)
    (status : Int) (recipients : List String) (sender reply_to : String)
    (backup : List String) (location event_time : String)
    (h0 : status ≠ 0) (h1 : status ≠ 1) :
    send_mail env status recipients sender reply_to backup location event_time =
      ⟨[⟨.debug, "Attempting to send mail to " ++ pyStrList recipients⟩], [], [],
        .error (.nameError "msg")⟩ := by
  simp [send_mail, composeMessage, h0, h1]

/-- C10 witness: a concrete invocation with status 2. -/
theorem send_mail_bad_status_never_sends_witness :
    send_mail (fun _ => true) 2 ["a@x.edu"] "f@x.edu" "r@x.edu" ["bk@x.edu"] "L" "t" =
      ⟨[⟨.debug, "Attempting to send mail to " ++ pyStrList ["a@x.edu"]⟩], [], [],
        .error (.nameError "msg")⟩ :=
  send_mail_bad_status_never_sends (fun _ => true) 2 ["a@x.edu"] "f@x.edu" "r@x.edu"
    ["bk@x.edu"] "L" "t" (by decide) (by decide)

/-- C3: in the sampling loop, a `handle_event` thread is dispatched at a
given sample exactly when that sample differs from the level it is
compared against — the previous sample, or the initial reading for the
first iteration — and the dispatched handler carries the new level as
its status.  Re-sampling the same level yields `none` (no dispatch). -/
theorem loop_dispatch_iff_level_change (a : Nat) (samples : List Nat) (i : Nat)
    (h : i < samples.length) :
    (loopSteps a samples).getD i none =
      if samples.getD i 0 = prevLevel a samples i then none
      else some (samples.getD i 0) := by
  induction samples generalizing a i with
  | nil => simp at h
  | cons b rest ih =>
    cases i with
    | zero =>
      simp only [loopSteps, List.getD_cons_zero, prevLevel, if_pos rfl]
      by_cases hab : a = b
      · simp [hab]
      · have hba : ¬b = a := fun hba => hab hba.symm
        simp [hab, hba]
    | succ j =>
      have hj : j < rest.length := by simpa using h
      have hprev : prevLevel a (b :: rest) (j + 1) = prevLevel b rest j := by
        cases j with
        | zero => simp [prevLevel]
        | succ k => simp [prevLevel]
      simpa [loopSteps, hprev] using ih b j hj

/-- C3 witness: the first loop sample 1 against an initial reading 0
dispatches with status 1. -/
theorem loop_dispatch_iff_level_change_witness :
    (loopSteps 0 [1]).getD 0 none =
      if ([1] : List Nat).getD 0 0 = prevLevel 0 [1] 0 then none
      else some (([1] : List Nat).getD 0 0) :=
  loop_dispatch_iff_level_change 0 [1] 0 (by decide)

/-- C5: an initial HIGH reading dispatches exactly one startup ALERT
handler (status 1), and when the first loop sample is still HIGH it adds
no further dispatch — the dispatched statuses are `1` followed by
exactly the dispatches of the loop on the remaining samples.  An
initial LOW reading dispatches nothing at startup: the dispatched
statuses are exactly those of the loop. -/
theorem monitor_startup_dispatch (rest samples : List Nat) :
    monitorDispatches 1 (1 :: rest) = 1 :: (loopSteps 1 rest).filterMap id ∧
    monitorDispatches 0 samples = (loopSteps 0 samples).filterMap id := by
  constructor
  · simp [monitorDispatches, loopSteps]
  · simp [monitorDispatches]

/-- C7: a directory entry whose `Email` field is the string
`"a@x.edu, b@x.edu"` and whose `IP` matches the host key produces a
`send_mail` call whose recipients list is exactly
`["a@x.edu", "b@x.edu"]` — the comma-space-separated list is split with
the space after the comma stripped.  Evaluated end to end through
`parse_info` and `handle_event`. -/
theorem recipients_comma_space_split :
    (handle_event (fun _ => true)
      [["IP", "Email", "Location", "Department", "From Email", "Reply-To Email", "Backup Email"],
       ["10.0.0.5", "a@x.edu, b@x.edu", "L", "D", "f@x.edu", "r@x.edu", "bk@x.edu"]]
      1 "10.0.0.5" "t").map (fun r => r.sends.map (fun a => a.recipients)) =
    some [["a@x.edu", "b@x.edu"]] := by decide

/-- C8 counterexample: the claim states that any row whose field count
differs from the header row fails the whole load.  A row with fewer
fields than the header does not: here a 1-field row under a 2-field
header is accepted, producing an entry with only the populated column. -/
theorem parse_info_short_row_accepted :
    (["10.0.0.1"] : List String).length ≠ (["IP", "Email"] : List String).length ∧
    parse_info [["IP", "Email"], ["10.0.0.1"]] = .ok [[("IP", "10.0.0.1")]] :=
  ⟨by decide, rfl⟩

/-- C8 amended: a data row with MORE fields than the header makes the
whole load fail (the `header[i]` access raises `IndexError`, and no
partial entry list is returned); rows with at most as many fields as
the header — including strictly fewer — are all accepted, one entry per
row in order, with missing trailing columns simply left unbound.  The
load succeeds if and only if every row fits the header, and then the
number of entries equals the number of data rows (no per-row skip). -/
theorem parse_info_succeeds_iff_rows_fit_header (header : List String)
    (rows : List (List String)) :
    (parse_info (header :: rows)).toOption.map List.length =
      if rows.all (fun row => decide (row.length ≤ header.length)) = true
      then some rows.length else none := by
  show (buildEntries header rows).toOption.map List.length = _
  induction rows with
  | nil => simp [buildEntries, Except.toOption]
  | cons r rest ih =>
    rw [buildEntries]
    cases hb : buildEntry header r with
    | error e =>
      have hnot : ¬ r.length ≤ header.length := by
        intro hle
        have := (exceptOk_buildEntry header r).mpr hle
        rw [hb] at this
        simp [exceptOk] at this
      simp [Except.toOption, List.all_cons, hnot]
    | ok v =>
      have hle : r.length ≤ header.length :=
        (exceptOk_buildEntry header r).mp (by rw [hb]; rfl)
      cases hrest : buildEntries header rest with
      | error e =>
        rw [hrest] at ih
        have hcond : ¬ (rest.all (fun row => decide (row.length ≤ header.length)) = true) := by
          intro hc
          rw [if_pos hc] at ih
          simp [Except.toOption] at ih
        simp [Except.toOption, List.all_cons, hle, hcond]
      | ok es =>
        rw [hrest] at ih
        have hcond : rest.all (fun row => decide (row.length ≤ header.length)) = true := by
          by_contra hc
          rw [if_neg hc] at ih
          simp [Except.toOption] at ih
        rw [if_pos hcond] at ih
        simp only [Except.toOption, Option.map] at ih
        have hlen : es.length = rest.length := by simpa using ih
        simp [Except.toOption, List.all_cons, hle, hcond, hlen]

/-- C9: the matching-loop body reads a `Department` field from every
matching entry (line 275) even though `Department` is not among the six
columns the file format requires, so a matching entry that lacks a
`Department` column makes the handler raise `KeyError` before
`send_mail` is called for it: the iteration ends in the lookup error
and no delivery is attempted. -/
theorem department_missing_aborts_before_send (env : SendAttempt → Bool) (status : Int)
    (ip event_time : String) (entry : Dict)
    (hip : dictGet? entry "IP" = some ip)
    (hemail : (dictGet? entry "Email").isSome = true)
    (hloc : (dictGet? entry "Location").isSome = true)
    (hdep : dictGet? entry "Department" = none) :
    (processEntry env status ip event_time entry).result = .error (.keyError "Department") ∧
    (processEntry env status ip event_time entry).sends = [] := by
  obtain ⟨email, he⟩ := Option.isSome_iff_exists.mp hemail
  obtain ⟨loc, hl⟩ := Option.isSome_iff_exists.mp hloc
  have hpe : processEntry env status ip event_time entry =
      ⟨[], [], [], .error (.keyError "Department")⟩ := by
    simp [processEntry, entryFields, pyGet, hip, he, hl, hdep]
  rw [hpe]
  exact ⟨rfl, rfl⟩

/-- C9 witness: a matching entry carrying exactly the six required
columns and no `Department`. -/
theorem department_missing_aborts_before_send_witness :
    (processEntry (fun _ => true) 1 "10.0.0.7" "t"
      [("IP", "10.0.0.7"), ("Location", "L"), ("Email", "a@x.edu"),
        ("Backup Email", "b@x.edu"), ("Reply-To Email", "r@x.edu"),
        ("From Email", "f@x.edu")]).result = .error (.keyError "Department") ∧
    (processEntry (fun _ => true) 1 "10.0.0.7" "t"
      [("IP", "10.0.0.7"), ("Location", "L"), ("Email", "a@x.edu"),
        ("Backup Email", "b@x.edu"), ("Reply-To Email", "r@x.edu"),
        ("From Email", "f@x.edu")]).sends = [] :=
  department_missing_aborts_before_send (fun _ => true) 1 "10.0.0.7" "t"
    [("IP", "10.0.0.7"), ("Location", "L"), ("Email", "a@x.edu"),
      ("Backup Email", "b@x.edu"), ("Reply-To Email", "r@x.edu"),
      ("From Email", "f@x.edu")]
    (by decide) (by decide) (by decide) (by decide)

/-- C6 counterexample: the claim states that a zero-match run logs the
no-op at debug level as a "no matching entry" record.  It does not: on
a concrete directory whose only entry has a different `IP`, the run
sends nothing and emits only the three fixed pre-loop records — none of
which is at debug level with a text containing "no matching entry"
(shown by the substring flag computed for every record). -/
theorem handle_event_no_match_not_logged :
    (handle_event (fun _ => true) [["IP", "Email"], ["10.0.0.1", "a@x.edu"]] 1
        "10.0.0.9" "t").map
      (fun r => (r.sends,
        r.logs.map (fun e => (e.level, decide (("no matching entry").data <:+: e.text.data))))) =
    some ([], [(.info, false), (.debug, false), (.debug, false)]) := by decide

/-- C6 amended: `handle_event` invokes `send_mail` once for every
directory entry whose `IP` field equals the resolved host key — all
matches, in directory order, each with that entry's split `Email` list
as recipients — and when zero entries match nothing is sent; the zero-
match no-op, however, produces no log record at all (the code has no
"no matching entry" debug logging).  Stated for entries that bind every
field the loop reads and an SMTP environment that delivers, so that no
exception cuts the loop short. -/
theorem handle_event_notifies_all_matches (env : SendAttempt → Bool)
    (csvRows : List (List String)) (status : Int) (ip event_time : String)
    (info : List Dict)
    (hparse : parse_info csvRows = .ok info)
    (hf : info.all requiredFieldsPresent = true)
    (henv : ∀ a, env a = true)
    (hstatus : status = 0 ∨ status = 1) :
    (handle_event env csvRows status ip event_time).map
        (fun r => (r.result, r.sends.map (fun a => a.recipients))) =
      some (.ok (),
        (info.filter (matchesHost ip)).map
          (fun e => pySplit ((dictGet? e "Email").getD "") ", ")) := by
  unfold handle_event
  rw [hparse]
  have h := processEntries_all_matches env status ip event_time info hf henv hstatus
  simp [Run.withLogs, h.1, h.2]

/-- C6 witness: a three-entry directory with two matching entries (the
first and third) and one non-matching entry; both matches are notified,
in order, the second with a two-address split list. -/
theorem handle_event_notifies_all_matches_witness :
    (handle_event (fun _ => true)
        [["IP", "Email", "Location", "Department", "From Email", "Reply-To Email", "Backup Email"],
         ["10.0.0.5", "a@x.edu", "L1", "D1", "f@x.edu", "r@x.edu", "b@x.edu"],
         ["10.0.0.6", "c@x.edu", "L2", "D2", "f2@x.edu", "r2@x.edu", "b2@x.edu"],
         ["10.0.0.5", "d@x.edu, e@x.edu", "L3", "D3", "f3@x.edu", "r3@x.edu", "b3@x.edu"]]
        1 "10.0.0.5" "t").map
        (fun r => (r.result, r.sends.map (fun a => a.recipients))) =
      some (.ok (),
        (([[("IP", "10.0.0.5"), ("Email", "a@x.edu"), ("Location", "L1"), ("Department", "D1"),
            ("From Email", "f@x.edu"), ("Reply-To Email", "r@x.edu"), ("Backup Email", "b@x.edu")],
           [("IP", "10.0.0.6"), ("Email", "c@x.edu"), ("Location", "L2"), ("Department", "D2"),
            ("From Email", "f2@x.edu"), ("Reply-To Email", "r2@x.edu"), ("Backup Email", "b2@x.edu")],
           [("IP", "10.0.0.5"), ("Email", "d@x.edu, e@x.edu"), ("Location", "L3"), ("Department", "D3"),
            ("From Email", "f3@x.edu"), ("Reply-To Email", "r3@x.edu"), ("Backup Email", "b3@x.edu")]] :
            List Dict).filter (matchesHost "10.0.0.5")).map
          (fun e => pySplit ((dictGet? e "Email").getD "") ", ")) :=
  handle_event_notifies_all_matches (fun _ => true)
    [["IP", "Email", "Location", "Department", "From Email", "Reply-To Email", "Backup Email"],
     ["10.0.0.5", "a@x.edu", "L1", "D1", "f@x.edu", "r@x.edu", "b@x.edu"],
     ["10.0.0.6", "c@x.edu", "L2", "D2", "f2@x.edu", "r2@x.edu", "b2@x.edu"],
     ["10.0.0.5", "d@x.edu, e@x.edu", "L3", "D3", "f3@x.edu", "r3@x.edu", "b3@x.edu"]]
    1 "10.0.0.5" "t"
    [[("IP", "10.0.0.5"), ("Email", "a@x.edu"), ("Location", "L1"), ("Department", "D1"),
      ("From Email", "f@x.edu"), ("Reply-To Email", "r@x.edu"), ("Backup Email", "b@x.edu")],
     [("IP", "10.0.0.6"), ("Email", "c@x.edu"), ("Location", "L2"), ("Department", "D2"),
      ("From Email", "f2@x.edu"), ("Reply-To Email", "r2@x.edu"), ("Backup Email", "b2@x.edu")],
     [("IP", "10.0.0.5"), ("Email", "d@x.edu, e@x.edu"), ("Location", "L3"), ("Department", "D3"),
      ("From Email", "f3@x.edu"), ("Reply-To Email", "r3@x.edu"), ("Backup Email", "b3@x.edu")]]
    (by decide) (by decide) (fun _ => rfl) (Or.inr rfl)

end FreezerMonitor
